import Mathlib

/-!
# Verification of the AMRIT backend ingestion-and-assessment pipeline

Shallow embedding of the heavy-metal pollution pipeline:
`src/utils/hmpiCalculator.js` (index engine), `src/utils/excelParser.js`
(record extractor), `src/utils/fileUploader.js` (file hashing) and
`src/controllers/dataController.js` (ingestion controller).

Modelling conventions:
* JavaScript numbers are modelled as exact rationals (`ℚ`); the two places
  where the source takes real roots or logarithms (`Math.pow(x, 1/n)`,
  `Math.sqrt`, `Math.log2`) are modelled over `ℝ`.
* `Math.round(x)` is `⌊x + 1/2⌋` (JavaScript rounds half toward +∞).
* JavaScript objects whose keys are metal symbols are modelled as
  association lists in entry order (`Object.entries` order).
* Fallible calculators (`throw`) return `Except String _`.
-/

deriving instance DecidableEq for Except

namespace AMRIT

/-- JavaScript `metal.toUpperCase()` on one character; metal symbols are
ASCII, so only the ASCII range matters. -/
def jsToUpperChar (c : Char) : Char :=
  if 97 ≤ c.toNat ∧ c.toNat ≤ 122 then Char.ofNat (c.toNat - 32) else c

/-- JavaScript `s.toUpperCase()` restricted to ASCII content. -/
def jsToUpper (s : String) : String := ⟨s.data.map jsToUpperChar⟩

/-- JavaScript `Math.round`: half-up rounding, `Math.round x = ⌊x + 0.5⌋`. -/
def jsRound (x : ℚ) : ℤ := ⌊x + 1/2⌋

/-- `Math.round(x * 100) / 100` — round to 2 decimal places. -/
def round2 (x : ℚ) : ℚ := (jsRound (x * 100) : ℚ) / 100

/-- `Math.round(x * 1000) / 1000` — round to 3 decimal places. -/
def round3 (x : ℚ) : ℚ := (jsRound (x * 1000) : ℚ) / 1000

/-- `Math.round(x * 1000000) / 1000000` — round to 6 decimal places. -/
def round6 (x : ℚ) : ℚ := (jsRound (x * 1000000) : ℚ) / 1000000

/-- `Math.round` on a real argument (used after `Math.pow`/`Math.sqrt`). -/
noncomputable def jsRoundR (x : ℝ) : ℤ := ⌊x + 1/2⌋

/-- Round a real to 2 decimal places, as `Math.round(x * 100) / 100`. -/
noncomputable def round2R (x : ℝ) : ℝ := (jsRoundR (x * 100) : ℝ) / 100

/-- One measured metal reading: `{ value, unit }` as handed to the calculator. -/
structure MetalData where
  value : ℚ
  unit : String
deriving DecidableEq, Repr

/-- A drinking-water standard entry (`this.drinkingWaterStandards[metal]`). -/
structure Standard where
  permissible : ℚ
  ideal : ℚ
  weightage : ℚ
  unit : String
deriving DecidableEq, Repr

/-- IS 10500:2012 drinking-water standards table (hmpiCalculator constructor). -/
def drinkingWaterStandards : List (String × Standard) :=
  [ ("AS", ⟨0.05, 0.01, 5, "mg/L"⟩)
  , ("CD", ⟨0.005, 0.003, 5, "mg/L"⟩)
  , ("CR", ⟨0.05, 0, 4, "mg/L"⟩)
  , ("CU", ⟨1.5, 0, 1, "mg/L"⟩)
  , ("PB", ⟨0.01, 0, 5, "mg/L"⟩)
  , ("HG", ⟨0.002, 0.001, 5, "mg/L"⟩)
  , ("NI", ⟨0.07, 0.02, 2, "mg/L"⟩)
  , ("ZN", ⟨15, 5, 1, "mg/L"⟩)
  , ("FE", ⟨0.3, 0, 2, "mg/L"⟩)
  , ("U", ⟨0.03, 0, 4, "mg/L"⟩) ]

/-- Background crustal concentrations for Igeo. -/
def backgroundConcentrations : List (String × ℚ) :=
  [ ("AS", 1.5), ("CD", 0.1), ("CR", 100), ("CU", 50), ("PB", 20)
  , ("HG", 0.08), ("NI", 75), ("ZN", 70), ("FE", 35000), ("U", 2.7) ]

/-- Toxic response factors for ERI. -/
def toxicResponseFactors : List (String × ℚ) :=
  [ ("AS", 10), ("CD", 30), ("CR", 2), ("CU", 5), ("PB", 5)
  , ("HG", 40), ("NI", 5), ("ZN", 1), ("FE", 1), ("U", 5) ]

/-- Reference doses (mg/kg/day) for HRI. -/
def referenceDoses : List (String × ℚ) :=
  [ ("AS", 0.0003), ("CD", 0.001), ("CR", 0.003), ("CU", 0.04), ("PB", 0.0036)
  , ("HG", 0.0003), ("NI", 0.02), ("ZN", 0.3), ("FE", 0.7), ("U", 0.003) ]

/-- The `conversionFactors` table of `normalizeToMgL` (μ is U+03BC as in source). -/
def conversionFactorsToMgL : List (String × ℚ) :=
  [ ("mg/L", 1), ("ppm", 1), ("ppb", 0.001), ("μg/L", 0.001)
  , ("g/L", 1000), ("ng/L", 0.000001) ]

/-- `normalizeToMgL(value, unit)`: `value * (conversionFactors[unit] || 1)`.
An unknown unit yields factor 1 (no listed factor is falsy, so `|| 1` is
exactly "default on missing key"). -/
def normalizeToMgL (value : ℚ) (unit : String) : ℚ :=
  value * ((conversionFactorsToMgL.lookup unit).getD 1)

/-- An `{ category, level }` interpretation object. -/
structure Interp where
  category : String
  level : String
deriving DecidableEq, Repr

/-- `interpretHPI(value)`. -/
def interpretHPI (value : ℚ) : Interp :=
  if value < 100 then ⟨"Low pollution", "Safe"⟩
  else if value = 100 then ⟨"Near threshold", "Warning"⟩
  else ⟨"High pollution", "Unsafe"⟩

/-- `interpretCF(value)`. -/
def interpretCF (value : ℚ) : Interp :=
  if value < 1 then ⟨"Low contamination", "Safe"⟩
  else if value < 3 then ⟨"Moderate contamination", "Moderate"⟩
  else if value < 6 then ⟨"Considerable contamination", "High"⟩
  else ⟨"Very high contamination", "Critical"⟩

/-- `interpretHRI(value)`. -/
def interpretHRI (value : ℚ) : Interp :=
  if value < 1 then ⟨"No significant risk", "Safe"⟩
  else ⟨"Potential health risk", "Risk"⟩

/-- `interpretERI(value)`. -/
def interpretERI (value : ℚ) : Interp :=
  if value < 40 then ⟨"Low ecological risk", "Safe"⟩
  else if value < 80 then ⟨"Moderate ecological risk", "Moderate"⟩
  else ⟨"High ecological risk", "High"⟩

/-- `interpretPLI(value)` (applied to the unrounded `Math.pow` result). -/
noncomputable def interpretPLI (value : ℝ) : Interp :=
  if value < 1 then ⟨"No pollution", "Safe"⟩
  else if value = 1 then ⟨"Baseline pollution", "Threshold"⟩
  else ⟨"Pollution present", "Polluted"⟩

/-- `interpretNemerow(value)` (applied to the unrounded `Math.sqrt` result). -/
noncomputable def interpretNemerow (value : ℝ) : Interp :=
  if value < 1 then ⟨"No pollution", "Safe"⟩
  else if value < 2 then ⟨"Slight pollution", "Low"⟩
  else if value < 3 then ⟨"Moderate pollution", "Moderate"⟩
  else ⟨"Severe pollution", "High"⟩

/-- `interpretIgeo(value)`. -/
noncomputable def interpretIgeo (value : ℝ) : Interp :=
  if value < 0 then ⟨"Unpolluted", "Safe"⟩
  else if value < 1 then ⟨"Unpolluted to moderately polluted", "Low"⟩
  else if value < 2 then ⟨"Moderately polluted", "Moderate"⟩
  else if value < 3 then ⟨"Moderately to strongly polluted", "High"⟩
  else if value < 4 then ⟨"Strongly polluted", "Very High"⟩
  else ⟨"Very strongly polluted", "Extreme"⟩

/-- One entry of `metalDetails` built inside `calculateHPI`. -/
structure MetalDetail where
  measuredValue : ℚ
  measuredUnit : String
  normalizedValue : ℚ
  idealValue : ℚ
  standardValue : ℚ
  weightage : ℚ
  qualityRating : ℚ
  contribution : ℚ
deriving DecidableEq, Repr

/-- Result object of `calculateHPI`. -/
structure HPIResult where
  value : ℚ
  interpretation : Interp
  metalDetails : List (String × MetalDetail)
  totalWeight : ℚ
  metalCount : ℕ
deriving DecidableEq, Repr

/-- The per-metal loop body of `calculateHPI`: metals without a standard are
skipped (`continue`), the rest produce a `metalDetails` entry with
`Qᵢ = ((Mᵢ − Iᵢ) / (Sᵢ − Iᵢ)) × 100`. -/
def hpiDetails (heavyMetalValues : List (String × MetalData)) :
    List (String × MetalDetail) :=
  heavyMetalValues.filterMap fun md =>
    (drinkingWaterStandards.lookup (jsToUpper md.1)).map fun std =>
      let mi := normalizeToMgL md.2.value md.2.unit
      let qi := ((mi - std.ideal) / (std.permissible - std.ideal)) * 100
      (md.1, ⟨md.2.value, md.2.unit, mi, std.ideal, std.permissible,
              std.weightage, qi, std.weightage * qi⟩)

/-- `calculateHPI(heavyMetalValues)`: `HPI = Σ(Wᵢ·Qᵢ) / ΣWᵢ`; throws
"No valid metals found for HPI calculation" when `totalWeight` is 0.
The interpretation is taken on the unrounded HPI, the value is rounded. -/
def calculateHPI (heavyMetalValues : List (String × MetalData)) :
    Except String HPIResult :=
  let details := hpiDetails heavyMetalValues
  let weightedSum := (details.map fun d => d.2.contribution).sum
  let totalWeight := (details.map fun d => d.2.weightage).sum
  if totalWeight = 0 then .error "No valid metals found for HPI calculation"
  else
    let hpi := weightedSum / totalWeight
    .ok ⟨round2 hpi, interpretHPI hpi, details, totalWeight, details.length⟩

/-- One entry of the `calculateContaminationFactors` result. -/
structure CFEntry where
  value : ℚ
  interpretation : Interp
  measuredConcentration : ℚ
  standardConcentration : ℚ
deriving DecidableEq, Repr

/-- `calculateContaminationFactors(heavyMetalValues)`: `CFᵢ = Mᵢ / permissibleᵢ`,
each reported value rounded to 2 decimals, interpretation on the raw CF. -/
def calculateContaminationFactors (heavyMetalValues : List (String × MetalData)) :
    List (String × CFEntry) :=
  heavyMetalValues.filterMap fun md =>
    (drinkingWaterStandards.lookup (jsToUpper md.1)).map fun std =>
      let nv := normalizeToMgL md.2.value md.2.unit
      let cf := nv / std.permissible
      (md.1, ⟨round2 cf, interpretCF cf, nv, std.permissible⟩)

/-- Result object of `calculatePLI`. The unrounded `Math.pow(product, 1/n)`
is a real number; the reported `value` is its 2-decimal rounding. -/
structure PLIResult where
  value : ℝ
  interpretation : Interp
  contaminationFactors : List (String × CFEntry)
  metalCount : ℕ

/-- `calculatePLI(heavyMetalValues)`: takes the **already rounded** CF values
reported by `calculateContaminationFactors`, multiplies them
(`reduce((prod, cf) => prod * cf, 1)`) and applies `Math.pow(product, 1/n)`;
throws "No valid metals found for PLI calculation" when no metal matched. -/
noncomputable def calculatePLI (heavyMetalValues : List (String × MetalData)) :
    Except String PLIResult :=
  let cfs := calculateContaminationFactors heavyMetalValues
  let cfValues := cfs.map fun c => c.2.value
  if cfValues.length = 0 then .error "No valid metals found for PLI calculation"
  else
    let product : ℚ := cfValues.foldl (fun prod cf => prod * cf) 1
    let pli : ℝ := (product : ℝ) ^ ((1 : ℝ) / (cfValues.length : ℝ))
    .ok ⟨round2R pli, interpretPLI pli, cfs, cfValues.length⟩

/-- Result object of `calculateNemerowIndex`. -/
structure NemerowResult where
  value : ℝ
  interpretation : Interp
  maxRatioValue : ℚ
  meanRatioValue : ℚ

/-- The `(normalizedValue, standard.permissible)` pairs collected by the
`calculateNemerowIndex` loop (metals without a standard are skipped). -/
def nemerowPairs (heavyMetalValues : List (String × MetalData)) : List (ℚ × ℚ) :=
  heavyMetalValues.filterMap fun md =>
    (drinkingWaterStandards.lookup (jsToUpper md.1)).map fun std =>
      (normalizeToMgL md.2.value md.2.unit, std.permissible)

/-- `calculateNemerowIndex(heavyMetalValues)`:
`PN = √(maxRatio² + meanRatio²)` with `meanRatio = mean(Mᵢ)/mean(Sᵢ)`;
throws when no metal matched a standard. -/
noncomputable def calculateNemerowIndex (heavyMetalValues : List (String × MetalData)) :
    Except String NemerowResult :=
  let pairs := nemerowPairs heavyMetalValues
  if pairs.length = 0 then .error "No valid metals found for Nemerow Index calculation"
  else
    let ratios := pairs.map fun p => p.1 / p.2
    let maxRatioValue := ratios.foldl max (ratios.headD 0)
    let meanConcentration := (pairs.map fun p => p.1).sum / pairs.length
    let meanStandard := (pairs.map fun p => p.2).sum / pairs.length
    let meanRatioValue := meanConcentration / meanStandard
    let pn : ℝ := Real.sqrt ((maxRatioValue : ℝ) * (maxRatioValue : ℝ) + (meanRatioValue : ℝ) * (meanRatioValue : ℝ))
    .ok ⟨round2R pn, interpretNemerow pn, round2 maxRatioValue, round2 meanRatioValue⟩

/-- One entry of the `calculateGeoaccumulationIndex` result. -/
structure IgeoEntry where
  value : ℝ
  interpretation : Interp
  measuredConcentration : ℚ
  backgroundConcentration : ℚ

/-- `calculateGeoaccumulationIndex(heavyMetalValues)`:
`Igeo = log₂(Mᵢ / (1.5 × Bᵢ))` per metal with a background concentration. -/
noncomputable def calculateGeoaccumulationIndex
    (heavyMetalValues : List (String × MetalData)) : List (String × IgeoEntry) :=
  heavyMetalValues.filterMap fun md =>
    (backgroundConcentrations.lookup (jsToUpper md.1)).map fun (background : ℚ) =>
      let nv := normalizeToMgL md.2.value md.2.unit
      let igeo : ℝ := Real.logb 2 ((nv : ℝ) / ((1.5 : ℝ) * (background : ℝ)))
      (md.1, IgeoEntry.mk (round2R igeo) (interpretIgeo igeo) nv background)

/-- One entry of the `calculateHealthRiskIndex` result. -/
structure HRIEntry where
  value : ℚ
  interpretation : Interp
  dailyIntake : ℚ
  referenceDose : ℚ
deriving DecidableEq, Repr

/-- `calculateHealthRiskIndex(heavyMetalValues, bodyWeight, waterIntake)`
(source defaults: 70 kg, 2 L/day): `dailyIntake = (Mᵢ × waterIntake) / bodyWeight`,
`HRI = dailyIntake / RfDᵢ`; the HRI value is rounded to 3 decimals and the
daily intake to 6 decimals, the interpretation uses the unrounded HRI. -/
def calculateHealthRiskIndex (heavyMetalValues : List (String × MetalData))
    (bodyWeight waterIntake : ℚ) : List (String × HRIEntry) :=
  heavyMetalValues.filterMap fun md =>
    (referenceDoses.lookup (jsToUpper md.1)).map fun rfd =>
      let nv := normalizeToMgL md.2.value md.2.unit
      let dim := nv * waterIntake / bodyWeight
      let hri := dim / rfd
      (md.1, ⟨round3 hri, interpretHRI hri, round6 dim, rfd⟩)

/-- One entry of `metalRisks` in the `calculateEcologicalRiskIndex` result. -/
structure ERIMetalRisk where
  contaminationFactor : ℚ
  toxicResponseFactor : ℚ
  ecologicalRisk : ℚ
deriving DecidableEq, Repr

/-- Result object of `calculateEcologicalRiskIndex`. -/
structure ERIResult where
  totalValue : ℚ
  interpretation : Interp
  metalRisks : List (String × ERIMetalRisk)
  metalCount : ℕ
deriving DecidableEq, Repr

/-- Raw `(metal, CF, TRF)` triples of the ERI loop: a metal is skipped when
it lacks either a drinking-water standard or a toxic response factor. -/
def eriRawRisks (heavyMetalValues : List (String × MetalData)) :
    List (String × ℚ × ℚ) :=
  heavyMetalValues.filterMap fun md =>
    match drinkingWaterStandards.lookup (jsToUpper md.1),
          toxicResponseFactors.lookup (jsToUpper md.1) with
    | some std, some trf =>
        some (md.1, normalizeToMgL md.2.value md.2.unit / std.permissible, trf)
    | _, _ => none

/-- `calculateEcologicalRiskIndex(heavyMetalValues)`: `ERI = Σ(CFᵢ × TRFᵢ)`,
total interpreted unrounded, reported values rounded to 2 decimals. -/
def calculateEcologicalRiskIndex (heavyMetalValues : List (String × MetalData)) :
    ERIResult :=
  let raw := eriRawRisks heavyMetalValues
  let totalERI := (raw.map fun r => r.2.1 * r.2.2).sum
  ⟨round2 totalERI, interpretERI totalERI,
   raw.map fun r => (r.1, ⟨round2 r.2.1, r.2.2, round2 (r.2.1 * r.2.2)⟩),
   raw.length⟩

/-- Result of `validateInputData`. -/
structure Validation where
  isValid : Bool
  errors : List String
deriving DecidableEq, Repr

/-- `validateInputData(heavyMetalValues)`. The `typeof` checks of the source
(non-number value, non-object entry) are unrepresentable in this typed
model; the remaining checks are: at least one metal, non-negative values,
non-empty unit strings (an empty unit string is falsy). -/
def validateInputData (heavyMetalValues : List (String × MetalData)) : Validation :=
  let emptyErr : List String :=
    if heavyMetalValues.length = 0 then ["At least one heavy metal value is required"] else []
  let perMetal : List String := heavyMetalValues.foldr
    (fun md acc =>
      (if md.2.value < 0 then
        ["Invalid value for metal " ++ md.1 ++ ": must be a non-negative number"] else []) ++
      (if md.2.unit = "" then ["Missing or invalid unit for metal: " ++ md.1] else []) ++ acc) []
  let errors := emptyErr ++ perMetal
  ⟨errors.isEmpty, errors⟩

/-- The `results` object assembled by `calculateComprehensiveAssessment`
(before `overallAssessment` is attached). -/
structure AssessmentCore where
  hpi : HPIResult
  nemerowIndex : NemerowResult
  contaminationFactors : List (String × CFEntry)
  pollutionLoadIndex : PLIResult
  geoaccumulationIndex : List (String × IgeoEntry)
  ecologicalRiskIndex : ERIResult
  healthRiskIndex : List (String × HRIEntry)

/-- The `overallAssessment` object of `generateOverallAssessment`. -/
structure OverallAssessment where
  riskLevel : String
  riskFactors : List String
  recommendations : List String
  summary : String
deriving DecidableEq, Repr

/-- `generateOverallAssessment(results)`: collects risk-factor strings from
HPI/Nemerow/PLI/HRI/ERI tiers, then maps the flag count to Safe (0),
Moderate (1-2) or High (3+) with fixed recommendation sets. -/
def generateOverallAssessment (results : AssessmentCore) : OverallAssessment :=
  let rf1 : List String :=
    if results.hpi.interpretation.level = "Unsafe"
    then ["High Heavy Metal Pollution Index"] else []
  let rf2 : List String :=
    if results.nemerowIndex.interpretation.level = "High"
    then ["Severe pollution detected by Nemerow Index"] else []
  let rf3 : List String :=
    if results.pollutionLoadIndex.interpretation.level = "Polluted"
    then ["Overall pollution load exceeds safe levels"] else []
  let healthRisks :=
    (results.healthRiskIndex.filter fun h => h.2.interpretation.level = "Risk").length
  let rf4 : List String :=
    if healthRisks > 0
    then [toString healthRisks ++ " metals pose potential health risks"] else []
  let rf5 : List String :=
    if results.ecologicalRiskIndex.interpretation.level = "High"
    then ["High ecological risk detected"] else []
  let riskFactors := rf1 ++ rf2 ++ rf3 ++ rf4 ++ rf5
  let riskLevel : String :=
    if riskFactors.length = 0 then "Safe"
    else if riskFactors.length ≤ 2 then "Moderate"
    else "High"
  let recommendations : List String :=
    if riskFactors.length = 0 then
      [ "Water quality is within acceptable limits"
      , "Continue routine monitoring"
      , "Maintain current environmental practices" ]
    else if riskFactors.length ≤ 2 then
      [ "Increase monitoring frequency"
      , "Investigate sources of contamination"
      , "Consider treatment options"
      , "Monitor health indicators in exposed populations" ]
    else
      [ "Immediate action required"
      , "Implement water treatment measures"
      , "Restrict use for drinking and irrigation"
      , "Identify and eliminate pollution sources"
      , "Consider alternative water sources"
      , "Monitor public health impacts" ]
  ⟨riskLevel, riskFactors, recommendations,
   toString riskFactors.length ++ " risk factors identified from comprehensive pollution assessment"⟩

/-- `calculateComprehensiveAssessment(heavyMetalValues, options)`: validates
the input, computes every index (the first throwing computation aborts the
whole assessment — `hpi` is evaluated first in the object literal), attaches
the overall assessment, and wraps any failure message with
"Comprehensive assessment failed: ". -/
noncomputable def calculateComprehensiveAssessment
    (heavyMetalValues : List (String × MetalData)) (bodyWeight waterIntake : ℚ) :
    Except String (AssessmentCore × OverallAssessment) :=
  let inner : Except String (AssessmentCore × OverallAssessment) :=
    let validation := validateInputData heavyMetalValues
    if validation.isValid then
      match calculateHPI heavyMetalValues,
            calculateNemerowIndex heavyMetalValues,
            calculatePLI heavyMetalValues with
      | .ok hpi, .ok nemerowIndex, .ok pollutionLoadIndex =>
          let core : AssessmentCore :=
            ⟨hpi, nemerowIndex, calculateContaminationFactors heavyMetalValues,
             pollutionLoadIndex, calculateGeoaccumulationIndex heavyMetalValues,
             calculateEcologicalRiskIndex heavyMetalValues,
             calculateHealthRiskIndex heavyMetalValues bodyWeight waterIntake⟩
          .ok (core, generateOverallAssessment core)
      | .error e, _, _ => .error e
      | _, .error e, _ => .error e
      | _, _, .error e => .error e
    else .error ("Validation failed: " ++ String.intercalate ", " (validateInputData heavyMetalValues).errors)
  inner.mapError fun msg => "Comprehensive assessment failed: " ++ msg

/-- The `hmpi` summary stored on every persisted record by the controller. -/
structure HmpiSummary where
  value : Option ℚ
  category : String
deriving DecidableEq, Repr

/-- The `pollutionIndices` sub-document the controller attaches to a record. -/
structure PollutionIndicesDoc where
  hmpi : HmpiSummary
  calcError : Option String
  assessment : Option (AssessmentCore × OverallAssessment)

/-- Controller step (dataController.js lines 98-176): when the converted
heavy-metals map is non-empty, run the comprehensive assessment with default
parameters and catch any calculation error into a
`{ value: null, category: 'Unknown', error }` summary; when the map is
empty, skip the calculation entirely and store
`{ value: null, category: 'No Heavy Metals' }`. This function is total:
a record is never aborted by an index-calculation failure. -/
noncomputable def computePollutionIndices (heavyMetalsForCalculation : List (String × MetalData)) :
    PollutionIndicesDoc :=
  if heavyMetalsForCalculation.length > 0 then
    match calculateComprehensiveAssessment heavyMetalsForCalculation 70 2 with
    | .ok assessment =>
        ⟨⟨some assessment.1.hpi.value, assessment.1.hpi.interpretation.level⟩,
         none, some assessment⟩
    | .error msg => ⟨⟨none, "Unknown"⟩, some msg, none⟩
  else ⟨⟨none, "No Heavy Metals"⟩, none, none⟩

/-! ## Record extractor (`src/utils/excelParser.js`)

A spreadsheet cell is a number, a string, or absent (`null`/empty, which the
source checks before using any cell). The role-matching pass of
`extractLocationInfo` (a `findIndex` over keyword pattern lists, first
matching header wins per role) resolves each semantic role to at most one
column; we model a data row by the cells found at those resolved columns,
with `Cell.empty` when no column matched the role or the cell was null. -/

/-- A spreadsheet cell value. -/
inductive Cell
  | num (q : ℚ)
  | str (s : String)
  | empty
deriving DecidableEq, Repr

/-- Digits-to-number accumulator for the numeric prefix parsers. -/
def digitsToNat (ds : List Char) : ℕ :=
  ds.foldl (fun n c => 10 * n + (c.toNat - 48)) 0

/-- JavaScript `parseFloat` on a string: skip leading whitespace, optional
sign, longest `digits[.digits]` prefix; `none` models `NaN` (no digits at
all). Exponent suffixes and `Infinity`, which `parseFloat` also accepts, do
not occur in the inputs considered here and are not modelled. -/
def jsParseFloatStr (s : String) : Option ℚ :=
  let cs := s.data.dropWhile fun c => c = ' ' ∨ c = '\t' ∨ c = '\n' ∨ c = '\r'
  let signAndRest : ℚ × List Char :=
    match cs with
    | '-' :: rest => (-1, rest)
    | '+' :: rest => (1, rest)
    | _ => (1, cs)
  let intPart := signAndRest.2.takeWhile Char.isDigit
  let afterInt := signAndRest.2.dropWhile Char.isDigit
  let fracPart : List Char :=
    match afterInt with
    | '.' :: r => r.takeWhile Char.isDigit
    | _ => []
  if intPart.isEmpty ∧ fracPart.isEmpty then none
  else some (signAndRest.1 *
    ((digitsToNat intPart : ℚ) + (digitsToNat fracPart : ℚ) / (10 : ℚ) ^ fracPart.length))

/-- JavaScript `parseInt` on a string: sign and longest digit prefix. -/
def jsParseIntStr (s : String) : Option ℤ :=
  let cs := s.data.dropWhile fun c => c = ' ' ∨ c = '\t' ∨ c = '\n' ∨ c = '\r'
  let signAndRest : ℤ × List Char :=
    match cs with
    | '-' :: rest => (-1, rest)
    | '+' :: rest => (1, rest)
    | _ => (1, cs)
  let digits := signAndRest.2.takeWhile Char.isDigit
  if digits.isEmpty then none else some (signAndRest.1 * (digitsToNat digits : ℤ))

/-- Truncation toward zero, as JavaScript `parseInt` applied to the decimal
rendering of a finite number. -/
def ratTrunc (q : ℚ) : ℤ := if 0 ≤ q then ⌊q⌋ else -⌊-q⌋

/-- `parseFloat(value)` for a cell value (`NaN` becomes `none`). -/
def parseFloatCell : Cell → Option ℚ
  | .num q => some q
  | .str s => jsParseFloatStr s
  | .empty => none

/-- `parseInt(value)` for a cell value (`NaN` becomes `none`). -/
def parseIntCell : Cell → Option ℤ
  | .num q => some (ratTrunc q)
  | .str s => jsParseIntStr s
  | .empty => none

/-- JavaScript `s.trim()`: strip whitespace from both ends. -/
def jsTrim (s : String) : String :=
  ⟨((s.data.dropWhile Char.isWhitespace).reverse.dropWhile Char.isWhitespace).reverse⟩

/-- `String(value).trim()` for a non-empty cell. The exact decimal rendering
of numbers is irrelevant downstream (only location-name truthiness and
opaque text content matter), so a numeric cell is rendered via `toString`;
it is never the empty string, matching JavaScript. -/
def cellToTrimmedString : Cell → String
  | .num q => toString q
  | .str s => jsTrim s
  | .empty => ""

/-- The cells of one data row at the columns resolved for each location
role by the keyword matcher of `extractLocationInfo`. -/
structure RowCells where
  nameCell : Cell
  stateCell : Cell
  districtCell : Cell
  latCell : Cell
  lngCell : Cell
  yearCell : Cell
  serialCell : Cell
deriving DecidableEq, Repr

/-- The `location` object built by `extractLocationInfo`: a key is present
only when its column resolved, the cell was non-null, and (for numeric
roles) parsing succeeded; the year must additionally satisfy
`year > 1900 && year <= currentYear + 1` or the key is dropped. -/
structure LocationInfo where
  name : Option String
  state : Option String
  district : Option String
  latitude : Option ℚ
  longitude : Option ℚ
  year : Option ℤ
  serialNumber : Option String
deriving DecidableEq, Repr

/-- `extractLocationInfo(row, headers)` given the role-resolved cells. -/
def extractLocationInfo (currentYear : ℤ) (r : RowCells) : LocationInfo :=
  { name := match r.nameCell with
      | .empty => none
      | c => some (cellToTrimmedString c)
    state := match r.stateCell with
      | .empty => none
      | c => some (cellToTrimmedString c)
    district := match r.districtCell with
      | .empty => none
      | c => some (cellToTrimmedString c)
    latitude := parseFloatCell r.latCell
    longitude := parseFloatCell r.lngCell
    year := match parseIntCell r.yearCell with
      | none => none
      | some y => if 1900 < y ∧ y ≤ currentYear + 1 then some y else none
    serialNumber := match r.serialCell with
      | .empty => none
      | c => some (cellToTrimmedString c) }

/-- One detected metal column for a row: the row's cell at that column and
the unit token extracted from the column header. -/
structure MetalCol where
  cell : Cell
  unit : String
deriving DecidableEq, Repr

/-- `extractHeavyMetalValues(row, metalColumns)`: a metal produces an entry
exactly when its cell is non-null, non-empty-string, parses as a number and
is non-negative; the unit falls back to `'ppm'` when falsy. -/
def extractHeavyMetalValues (metalCells : List (String × MetalCol)) :
    List (String × MetalData) :=
  metalCells.filterMap fun mc =>
    match mc.2.cell with
    | .empty => none
    | c =>
      if c = .str "" then none
      else match parseFloatCell c with
        | none => none
        | some v =>
            if 0 ≤ v then
              some (mc.1, ⟨v, if mc.2.unit = "" then "ppm" else mc.2.unit⟩)
            else none

/-- Truthiness of an optional string (`!x` is true for absent and `''`). -/
def jsFalsyOptStr (x : Option String) : Bool :=
  match x with
  | none => true
  | some s => s = ""

/-- Truthiness of an optional number (`!x` is true for absent and `0`). -/
def jsFalsyOptNum (x : Option ℚ) : Bool :=
  match x with
  | none => true
  | some v => v = 0

/-- `x || 0` for an optional number (`parseFloat(undefined)` is `NaN`,
and `NaN || 0` and `0 || 0` are both `0`). -/
def jsOrZero (x : Option ℚ) : ℚ :=
  match x with
  | none => 0
  | some v => if v = 0 then 0 else v

/-- `x || d` for an optional string (empty string falls back to `d`). -/
def jsOrDefaultStr (x : Option String) (d : String) : String :=
  match x with
  | none => d
  | some s => if s = "" then d else s

/-- `x || d` for an optional year (a stored year is never `0`). -/
def jsOrDefaultInt (x : Option ℤ) (d : ℤ) : ℤ :=
  match x with
  | none => d
  | some y => if y = 0 then d else y

/-- The structured record built by `processFile` for one accepted row. -/
structure SampleRecord where
  locationName : String
  locationState : String
  locationDistrict : String
  coordinates : ℚ × ℚ
  year : ℤ
  serialNumber : String
  heavyMetals : List (String × MetalData)
  rowNumber : ℕ
deriving DecidableEq, Repr

/-- A `{ row, error }` entry of the parser's error list. -/
structure RowError where
  row : ℕ
  error : String
deriving DecidableEq, Repr

/-- The per-row body of the `processFile` loop: the row is dropped with a
"Missing essential location data" error when
`!locationInfo.name || (!locationInfo.latitude && !locationInfo.longitude)`
(JavaScript truthiness: an absent key, an empty name, and a 0-valued
coordinate are all falsy); otherwise the record is built, with GeoJSON
coordinates `[longitude || 0, latitude || 0]`. -/
def processRow (currentYear : ℤ) (rowNumber : ℕ) (r : RowCells)
    (metalCells : List (String × MetalCol)) : Except RowError SampleRecord :=
  let locationInfo := extractLocationInfo currentYear r
  if jsFalsyOptStr locationInfo.name ||
      (jsFalsyOptNum locationInfo.latitude && jsFalsyOptNum locationInfo.longitude) then
    .error ⟨rowNumber, "Missing essential location data (name or coordinates)"⟩
  else
    .ok { locationName := locationInfo.name.getD ""
          locationState := jsOrDefaultStr locationInfo.state ""
          locationDistrict := jsOrDefaultStr locationInfo.district ""
          coordinates := (jsOrZero locationInfo.longitude, jsOrZero locationInfo.latitude)
          year := jsOrDefaultInt locationInfo.year currentYear
          serialNumber := jsOrDefaultStr locationInfo.serialNumber ("ROW_" ++ toString rowNumber)
          heavyMetals := extractHeavyMetalValues metalCells
          rowNumber := rowNumber }

/-- One parsed data row: the role-resolved cells plus the cells and units of
the detected metal columns (fixed per file by `detectHeavyMetalColumns`). -/
structure ParsedRow where
  cells : RowCells
  metalCells : List (String × MetalCol)
deriving DecidableEq, Repr

/-- The `processFile` row loop: row `i` (0-based) is spreadsheet row `i + 2`
(header row plus 1-based numbering); accepted rows and row errors are
accumulated in order. -/
def processRows (currentYear : ℤ) (rows : List ParsedRow) :
    List SampleRecord × List RowError :=
  (rows.enum).foldl
    (fun acc ir =>
      match processRow currentYear (ir.1 + 2) ir.2.cells ir.2.metalCells with
      | .ok rec => (acc.1 ++ [rec], acc.2)
      | .error e => (acc.1, acc.2 ++ [e]))
    ([], [])

/-! ## Ingestion controller (`src/controllers/dataController.js`) and
file hashing (`src/utils/fileUploader.js`)

The store (MongoDB via mongoose) is modelled as a list of persisted
documents. For persistence purposes a document is its file hash, its source
row number, and an abstract flag saying whether inserting it violates a
unique-key constraint of the store (the spec's "deliberately malformed
row"); the store accepts exactly the non-violating documents.
`crypto.createHash('sha256')` is an external library primitive; it is
modelled as an arbitrary function `H` of the file's byte content, which is
exactly what the source feeds it. -/

/-- A persisted pollution-data document, reduced to what persistence
decides: the dedup hash, the row provenance, and whether the store's
unique-key constraint rejects it. -/
structure ProcDoc where
  fileHash : List ℕ
  rowNumber : ℕ
  dupKey : Bool
deriving DecidableEq, Repr

/-- The mongoose `insertMany` error object: per-item `writeErrors` and the
successfully inserted documents. -/
structure InsertFailure where
  insertedDocs : List ProcDoc
  writeErrors : List (ℕ × String)
deriving DecidableEq, Repr

/-- `Model.insertMany(docs, { ordered: false })`: every non-violating
document is inserted; if any document violates a constraint the call throws
with per-index `writeErrors` and the inserted documents attached, otherwise
it resolves with the inserted documents. -/
def insertManyUnordered (store : List ProcDoc) (docs : List ProcDoc) :
    List ProcDoc × Except InsertFailure (List ProcDoc) :=
  let ok := docs.filter fun d => !d.dupKey
  let bad := docs.enum.filter fun p => p.2.dupKey
  let store1 := store ++ ok
  if bad.isEmpty then (store1, .ok docs)
  else (store1, .error ⟨ok, bad.map fun p => (p.1, "E11000 duplicate key error")⟩)

/-- `Model.create(doc)`: single-document insert. -/
def createOne (store : List ProcDoc) (doc : ProcDoc) :
    List ProcDoc × Except String ProcDoc :=
  if doc.dupKey then (store, .error "E11000 duplicate key error")
  else (store ++ [doc], .ok doc)

/-- `countDocuments({ 'processing.fileHash': hash })`. -/
def countByHash (store : List ProcDoc) (hash : List ℕ) : ℕ :=
  (store.filter fun d => d.fileHash == hash).length

/-- `find({ 'processing.fileHash': hash }).limit(n)`. -/
def findByHashLimit (store : List ProcDoc) (hash : List ℕ) (n : ℕ) : List ProcDoc :=
  (store.filter fun d => d.fileHash == hash).take n

/-- Split a list into chunks of `n` (the controller's retry batches of 100). -/
def chunksOfAux (fuel : ℕ) (n : ℕ) (l : List ProcDoc) : List (List ProcDoc) :=
  match fuel, l with
  | 0, _ => []
  | _, [] => []
  | f + 1, l => l.take n :: chunksOfAux f n (l.drop n)

/-- `for (let i = 0; i < records.length; i += batchSize) batches.push(...)`. -/
def chunksOf (n : ℕ) (l : List ProcDoc) : List (List ProcDoc) :=
  chunksOfAux l.length n l

/-- The controller's diagnostic chunked re-insertion loop (each batch's
failures are swallowed; only the running total is tracked). -/
def insertBatches (store : List ProcDoc) (batches : List (List ProcDoc)) :
    List ProcDoc × ℕ :=
  batches.foldl
    (fun acc batch =>
      match insertManyUnordered acc.1 batch with
      | (st, .ok res) => (st, acc.2 + res.length)
      | (st, .error f) => (st, acc.2 + f.insertedDocs.length))
    (store, 0)

/-- The persistence phase of `uploadPollutionData` (lines 273-402): bulk
insert with `ordered: false`; on a write-error failure take
`insertError.insertedDocs` as the saved set, re-count the documents carrying
this file hash, and — when that count is positive — **replace the saved set
with a 5-document sample** (`find(...).limit(5)`); when the count is zero,
retry the first record singly and then all records in chunks of 100. The
returned pair is (new store, `savedRecords` or the re-thrown error). -/
def persistRecords (store : List ProcDoc) (docs : List ProcDoc) (fileHash : List ℕ) :
    List ProcDoc × Except String (List ProcDoc) :=
  if docs.length > 0 then
    match insertManyUnordered store docs with
    | (store1, .ok insertResult) => (store1, .ok insertResult)
    | (store1, .error insertError) =>
      if !insertError.writeErrors.isEmpty then
        let actualCount := countByHash store1 fileHash
        if actualCount = 0 then
          match createOne store1 (docs.headD ⟨[], 0, false⟩) with
          | (store2, .ok testRecord) =>
              let store3 := (insertBatches store2 (chunksOf 100 docs)).1
              (store3, .ok [testRecord])
          | (store2, .error _) => (store2, .ok insertError.insertedDocs)
        else
          (store1, .ok (findByHashLimit store1 fileHash 5))
      else if !insertError.insertedDocs.isEmpty then
        (store1, .ok insertError.insertedDocs)
      else
        match createOne store1 (docs.headD ⟨[], 0, false⟩) with
        | (store2, .ok singleRecord) => (store2, .ok [singleRecord])
        | (store2, .error _) => (store2, .error "insertMany failed")
  else (store, .ok [])

/-- The `processing` summary and capped error list of the upload response. -/
structure BatchResponse where
  totalRows : ℕ
  processedRows : ℕ
  errorRows : ℕ
  reportedErrors : List RowError
deriving DecidableEq, Repr

/-- The response assembly of `uploadPollutionData`: `processedRows` is
`savedRecords.length`, `errorRows` counts the controller-loop processing
errors, and the warning list is the first 10 of them (persistence write
errors are only logged, never added). -/
def buildBatchResponse (totalRows : ℕ) (savedRecords : List ProcDoc)
    (processingErrors : List RowError) : BatchResponse :=
  ⟨totalRows, savedRecords.length, processingErrors.length,
   if processingErrors.length > 0 then processingErrors.take 10 else []⟩

/-- Persistence plus response assembly, as run by the controller after the
per-record processing loop. -/
def persistAndRespond (store : List ProcDoc) (docs : List ProcDoc)
    (fileHash : List ℕ) (totalRows : ℕ) (processingErrors : List RowError) :
    List ProcDoc × Except String BatchResponse :=
  match persistRecords store docs fileHash with
  | (store1, .ok savedRecords) =>
      (store1, .ok (buildBatchResponse totalRows savedRecords processingErrors))
  | (store1, .error e) => (store1, .error e)

/-- An uploaded file: its name and raw bytes (the parse step — the external
XLSX library — is represented by the role-resolved rows it yields). -/
structure UploadFile where
  originalName : String
  bytes : List ℕ
  rows : List ParsedRow

/-- `getFileMetadata(file)` (fileUploader.js): the dedup `hash` is
`generateFileHash(file.path)` = `H` applied to the file's byte content and
to nothing else (not the name, size or upload time). -/
structure FileMetadata where
  originalName : String
  size : ℕ
  hash : List ℕ
deriving DecidableEq, Repr

/-- `getFileMetadata` given the hash primitive `H` (`sha256` in source). -/
def getFileMetadata (H : List ℕ → List ℕ) (file : UploadFile) : FileMetadata :=
  ⟨file.originalName, file.bytes.length, H file.bytes⟩

/-- `uploadPollutionData` (controller): compute the file hash, reject the
whole upload with HTTP 409 when a stored record already carries this hash
(`findOne({'processing.fileHash': hash})`), otherwise extract the rows,
build one document per accepted record and run the persistence phase.
The pollution-index computation attached to each record never affects
whether the record is persisted, so it is elided from `ProcDoc` here
(`computePollutionIndices` models it separately). -/
def uploadPollutionDataModel (H : List ℕ → List ℕ) (currentYear : ℤ)
    (store : List ProcDoc) (file : UploadFile) :
    List ProcDoc × Except String BatchResponse :=
  let fileMetadata := getFileMetadata H file
  if store.any fun d => d.fileHash == fileMetadata.hash then
    (store, .error "This file has already been processed")
  else
    let parsed := processRows currentYear file.rows
    if parsed.1.length = 0 then (store, .error "No valid data found in file")
    else
      let docs := parsed.1.map fun rec => ProcDoc.mk fileMetadata.hash rec.rowNumber false
      persistAndRespond store docs fileMetadata.hash file.rows.length parsed.2

/-! ## Shared helper lemmas -/

/-- `jsOrZero` coincides with `Option.getD 0`. -/
lemma jsOrZero_eq_getD (x : Option ℚ) : jsOrZero x = x.getD 0 := by
  cases x with
  | none => rfl
  | some v => by_cases hv : v = 0 <;> simp [jsOrZero, hv]

/-- An optional string is non-falsy exactly when it holds a non-empty string. -/
lemma jsFalsyOptStr_eq_false (x : Option String) :
    jsFalsyOptStr x = false ↔ ∃ s, x = some s ∧ s ≠ "" := by
  cases x <;> simp [jsFalsyOptStr]

/-- An optional number is non-falsy exactly when it holds a nonzero number. -/
lemma jsFalsyOptNum_eq_false (x : Option ℚ) :
    jsFalsyOptNum x = false ↔ ∃ v, x = some v ∧ v ≠ 0 := by
  cases x <;> simp [jsFalsyOptNum]

/-- Truncation toward zero is the identity on integers. -/
lemma ratTrunc_intCast (y : ℤ) : ratTrunc (y : ℚ) = y := by
  unfold ratTrunc
  split
  · exact Int.floor_intCast y
  · rw [← Int.cast_neg, Int.floor_intCast]
    exact neg_neg y

/-- 2-decimal rounding is idempotent across the ℚ-to-ℝ boundary: re-rounding
an already 2-decimal-rounded value leaves it unchanged. -/
lemma round2R_cast_round2 (q : ℚ) :
    round2R ((round2 q : ℚ) : ℝ) = ((round2 q : ℚ) : ℝ) := by
  unfold round2 round2R jsRoundR
  push_cast
  rw [div_mul_cancel₀ _ (by norm_num : (100 : ℝ) ≠ 0)]
  rw [Int.floor_int_add]
  norm_num

/-! ## Claim inputs -/

/-- C3 counterexample input: raw contamination factors 0.004 (AS) and
0.036 (CD), which round to 0.00 and 0.04 before the product is taken. -/
def c3Input : List (String × MetalData) :=
  [("AS", ⟨0.0002, "mg/L"⟩), ("CD", ⟨0.00018, "mg/L"⟩)]

/-- The raw (unrounded) contamination factors, as the spec's PLI sentence
reads them: `CFᵢ = normalizedValueᵢ / permissibleᵢ`. -/
def rawCFs (heavyMetalValues : List (String × MetalData)) : List ℚ :=
  heavyMetalValues.filterMap fun md =>
    (drinkingWaterStandards.lookup (jsToUpper md.1)).map fun std =>
      normalizeToMgL md.2.value md.2.unit / std.permissible

/-- Modelled from the spec's words, for refinement comparison with
`calculatePLI`: "geometric mean of all CFᵢ (n-th root of their product)",
rounded to 2 decimals for output — i.e. the product ranges over the **raw**
contamination factors. -/
noncomputable def pliSpecFromRawCFs (heavyMetalValues : List (String × MetalData)) : Option ℝ :=
  let cfs := rawCFs heavyMetalValues
  if cfs.length = 0 then none
  else some (round2R (((cfs.foldl (fun a b => a * b) 1 : ℚ) : ℝ) ^ ((1 : ℝ) / (cfs.length : ℝ))))

/-- C2 batch: ten documents sharing one file hash, of which exactly the
third violates the store's unique-key constraint. -/
def c2Docs : List ProcDoc := (List.range 10).map fun i => ⟨[1], i + 1, decide (i + 1 = 3)⟩

/-- C5 counterexample row: a location name, a latitude cell holding 0
(which parses successfully), and no longitude column. -/
def c5Row : RowCells := ⟨.str "Site A", .empty, .empty, .num 0, .empty, .empty, .empty⟩

/-- C6 input: one metal (manganese) that is in the parser's detection list
but has no drinking-water standard, so every index calculation fails. -/
def mnInput : List (String × MetalData) := [("MN", ⟨0.02, "mg/L"⟩)]

/-- C10 witness row: a name, latitude 5, and no longitude column. -/
def c10Row : RowCells := ⟨.str "Site A", .empty, .empty, .num 5, .empty, .empty, .empty⟩

/-- The record `processRow` produces for `c10Row` in year 2025. -/
def c10Rec : SampleRecord := ⟨"Site A", "", "", (0, 5), 2025, "ROW_2", [], 2⟩

/-- C7 witness assessment: every index safe except one health-risk flag. -/
noncomputable def c7Core : AssessmentCore :=
  ⟨⟨25, ⟨"Low pollution", "Safe"⟩, [], 5, 1⟩,
   ⟨0, ⟨"No pollution", "Safe"⟩, 0, 0⟩,
   [],
   ⟨0, ⟨"No pollution", "Safe"⟩, [], 1⟩,
   [],
   ⟨0, ⟨"Low ecological risk", "Safe"⟩, [], 0⟩,
   [("AS", ⟨1.905, ⟨"Potential health risk", "Risk"⟩, 0.000571, 0.0003⟩)]⟩

/-! ## Intermediate evaluation lemmas -/

/-- CF evaluation on the C3 input: 0.004 rounds to 0, 0.036 rounds to 0.04. -/
lemma cf_c3Input : calculateContaminationFactors c3Input =
    [("AS", ⟨0, ⟨"Low contamination", "Safe"⟩, 1/5000, 1/20⟩),
     ("CD", ⟨1/25, ⟨"Low contamination", "Safe"⟩, 9/50000, 1/200⟩)] := by
  simp [calculateContaminationFactors, c3Input, drinkingWaterStandards, List.lookup,
    normalizeToMgL, conversionFactorsToMgL, round2, jsRound, interpretCF,
    show jsToUpper "AS" = "AS" from by decide, show jsToUpper "CD" = "CD" from by decide]
  norm_num

/-- Raw CF evaluation on the C3 input. -/
lemma rawCFs_c3Input : rawCFs c3Input = [1/250, 9/250] := by
  simp [rawCFs, c3Input, drinkingWaterStandards, List.lookup,
    normalizeToMgL, conversionFactorsToMgL,
    show jsToUpper "AS" = "AS" from by decide, show jsToUpper "CD" = "CD" from by decide]
  norm_num

/-- No drinking-water standard matches manganese, so `calculateHPI` throws. -/
lemma calculateHPI_mnInput :
    calculateHPI mnInput = .error "No valid metals found for HPI calculation" := by
  simp [calculateHPI, hpiDetails, mnInput, drinkingWaterStandards, List.lookup,
    show jsToUpper "MN" = "MN" from by decide]

/-- The MN-only input passes input validation (non-empty, value ≥ 0, unit set). -/
lemma validateInputData_mnInput : validateInputData mnInput = ⟨true, []⟩ := by
  simp [validateInputData, mnInput]
  norm_num

/-- The comprehensive assessment of the MN-only input fails with the
wrapped HPI error. -/
lemma comprehensive_mnInput : calculateComprehensiveAssessment mnInput 70 2 =
    .error "Comprehensive assessment failed: No valid metals found for HPI calculation" := by
  rw [calculateComprehensiveAssessment, validateInputData_mnInput, calculateHPI_mnInput]
  rfl

/-! ## Claim theorems -/

/-- C1: for the single-metal input AS at 0.02 mg/L, `calculateHPI` reports
quality rating Qᵢ = 25 and HPI = 25 with a Safe interpretation, and for any
HPI value the interpretation level is Safe below 100, Warning at exactly
100, and Unsafe above 100. -/
theorem C1_hpi_scenarioA_and_thresholds :
    calculateHPI [("AS", ⟨0.02, "mg/L"⟩)] =
      .ok ⟨25, ⟨"Low pollution", "Safe"⟩,
        [("AS", ⟨0.02, "mg/L", 0.02, 0.01, 0.05, 5, 25, 125⟩)], 5, 1⟩
    ∧ ∀ v : ℚ,
      (v < 100 → (interpretHPI v).level = "Safe")
      ∧ (v = 100 → (interpretHPI v).level = "Warning")
      ∧ (100 < v → (interpretHPI v).level = "Unsafe") := by
  constructor
  · simp [calculateHPI, hpiDetails, drinkingWaterStandards, List.lookup,
      normalizeToMgL, conversionFactorsToMgL, round2, jsRound, interpretHPI,
      show jsToUpper "AS" = "AS" from by decide]
    norm_num
  · intro v
    refine ⟨fun h => ?_, fun h => ?_, fun h => ?_⟩
    · simp [interpretHPI, h]
    · subst h; norm_num [interpretHPI]
    · rw [interpretHPI, if_neg (by linarith), if_neg (by linarith)]

/-- C1 witness: the three threshold implications at 99, 100 and 101. -/
theorem C1_hpi_thresholds_witness :
    (interpretHPI 99).level = "Safe"
    ∧ (interpretHPI 100).level = "Warning"
    ∧ (interpretHPI 101).level = "Unsafe" :=
  ⟨(C1_hpi_scenarioA_and_thresholds.2 99).1 (by norm_num),
   (C1_hpi_scenarioA_and_thresholds.2 100).2.1 rfl,
   (C1_hpi_scenarioA_and_thresholds.2 101).2.2 (by norm_num)⟩

/-- C2 (code bug evaluation): for a ten-row batch whose third document
violates a unique key, the store ends with exactly the nine other documents
(rows 1, 2, 4-10), but the controller's response reports `processedRows = 5`
— because after a partial bulk-insert failure it replaces the saved set with
a `find(...).limit(5)` sample — and its error list is empty: write errors
are only logged, never surfaced as (rowNumber, reason) entries. The claim's
required response would be `processedRows = 9` with one error entry for
row 3. -/
theorem C2_persistence_report_eval :
    ((persistAndRespond [] c2Docs [1] 10 []).1.map fun d => d.rowNumber)
      = [1, 2, 4, 5, 6, 7, 8, 9, 10]
    ∧ (persistAndRespond [] c2Docs [1] 10 []).2 = .ok ⟨10, 5, 0, []⟩ := by decide

/-- C3 counterexample: on `c3Input` the source's PLI is 0 (the AS
contamination factor 0.004 is rounded to 0 **before** the product is
taken), whereas the claimed geometric mean of the raw contamination
factors, rounded for output, is 0.01. -/
theorem C3_pli_rounded_cf_counterexample :
    (calculatePLI c3Input).toOption.map (fun r => r.value) = some 0
    ∧ pliSpecFromRawCFs c3Input = some ((1 : ℝ)/100)
    ∧ ((0 : ℝ) ≠ (1 : ℝ)/100) := by
  refine ⟨?_, ?_, by norm_num⟩
  · rw [calculatePLI, cf_c3Input]
    simp only [List.map, List.length]
    rw [if_neg (by norm_num)]
    simp only [Except.toOption, Option.map]
    norm_num
    norm_num [round2R, jsRoundR]
  · rw [pliSpecFromRawCFs, rawCFs_c3Input]
    simp only [List.length]
    rw [if_neg (by norm_num)]
    have hprod : ((([(1 : ℚ)/250, 9/250].foldl (fun a b => a * b) 1 : ℚ) : ℝ))
        = ((3 : ℝ)/250) ^ (2 : ℕ) := by norm_num
    rw [hprod, ← Real.rpow_natCast ((3 : ℝ)/250) 2, ← Real.rpow_mul (by norm_num)]
    norm_num
    norm_num [round2R, jsRoundR]

/-- C3 amended: `calculatePLI` is the geometric mean of the **rounded**
contamination-factor values; in particular, for a single matched metal the
PLI equals that metal's reported (2-decimal-rounded) CF value. -/
theorem C3_pli_single_metal_amended (s : String) (d : MetalData) (std : Standard)
    (h : drinkingWaterStandards.lookup (jsToUpper s) = some std) :
    ∃ r, calculatePLI [(s, d)] = .ok r
      ∧ r.value = ((round2 (normalizeToMgL d.value d.unit / std.permissible) : ℚ) : ℝ)
      ∧ r.metalCount = 1 := by
  have hcf : calculateContaminationFactors [(s, d)] =
      [(s, ⟨round2 (normalizeToMgL d.value d.unit / std.permissible),
            interpretCF (normalizeToMgL d.value d.unit / std.permissible),
            normalizeToMgL d.value d.unit, std.permissible⟩)] := by
    simp [calculateContaminationFactors, h]
  rw [calculatePLI, hcf]
  simp only [List.map, List.length]
  rw [if_neg (by norm_num)]
  refine ⟨_, rfl, ?_, rfl⟩
  simp only [List.foldl, one_mul]
  norm_num
  exact round2R_cast_round2 _

/-- C3 witness: for AS at 0.02 mg/L the (rounded) CF is 0.4 and the PLI
equals it. -/
theorem C3_pli_single_metal_witness :
    drinkingWaterStandards.lookup (jsToUpper "AS") = some ⟨0.05, 0.01, 5, "mg/L"⟩
    ∧ ∃ r, calculatePLI [("AS", ⟨0.02, "mg/L"⟩)] = .ok r
        ∧ r.value = ((round2 (normalizeToMgL 0.02 "mg/L" / ((⟨0.05, 0.01, 5, "mg/L"⟩ : Standard)).permissible) : ℚ) : ℝ)
        ∧ r.metalCount = 1 :=
  ⟨by rw [show jsToUpper "AS" = "AS" from by decide]; simp [drinkingWaterStandards, List.lookup],
   C3_pli_single_metal_amended "AS" ⟨0.02, "mg/L"⟩ ⟨0.05, 0.01, 5, "mg/L"⟩
     (by rw [show jsToUpper "AS" = "AS" from by decide]; simp [drinkingWaterStandards, List.lookup])⟩

/-- C4: the file digest is a function of the byte content alone (two files
with identical bytes but different names get the same hash, for every hash
primitive `H`), and an upload whose digest already occurs in the store is
rejected with "This file has already been processed" while the store is
left exactly unchanged — no row is extracted or persisted. -/
theorem C4_hash_deterministic_dedup (H : List ℕ → List ℕ) :
    (∀ f1 f2 : UploadFile, f1.bytes = f2.bytes →
        (getFileMetadata H f1).hash = (getFileMetadata H f2).hash)
    ∧ ∀ (currentYear : ℤ) (store : List ProcDoc) (file : UploadFile),
        (∃ d ∈ store, d.fileHash = H file.bytes) →
        uploadPollutionDataModel H currentYear store file =
          (store, .error "This file has already been processed") := by
  constructor
  · intro f1 f2 h
    simp [getFileMetadata, h]
  · rintro cy store file ⟨d, hd, hh⟩
    rw [uploadPollutionDataModel, if_pos]
    simp only [List.any_eq_true]
    exact ⟨d, hd, by simp [getFileMetadata, hh]⟩

/-- C4 witness: identity hash, byte-identical files named differently, and
a store already holding the digest `[7]`. -/
theorem C4_hash_dedup_witness :
    (getFileMetadata (fun b => b) ⟨"a.xlsx", [7], []⟩).hash
      = (getFileMetadata (fun b => b) ⟨"b.xlsx", [7], []⟩).hash
    ∧ uploadPollutionDataModel (fun b => b) 2025 [⟨[7], 1, false⟩] ⟨"a.xlsx", [7], []⟩
      = ([⟨[7], 1, false⟩], .error "This file has already been processed") :=
  ⟨(C4_hash_deterministic_dedup (fun b => b)).1 ⟨"a.xlsx", [7], []⟩ ⟨"b.xlsx", [7], []⟩ rfl,
   (C4_hash_deterministic_dedup (fun b => b)).2 2025 [⟨[7], 1, false⟩] ⟨"a.xlsx", [7], []⟩
     ⟨⟨[7], 1, false⟩, by simp, rfl⟩⟩

/-- C5 counterexample: a row with a resolvable location name ("Site A") and
a **resolved** latitude (the cell parses to 0) but no longitude is rejected
by `processFile`, because the drop test uses JavaScript truthiness and
`!0` is true — contradicting the claim that a row with a name and exactly
one resolved coordinate axis still produces a record. -/
theorem C5_zero_coordinate_counterexample :
    (extractLocationInfo 2025 c5Row).name = some "Site A"
    ∧ (extractLocationInfo 2025 c5Row).latitude = some 0
    ∧ processRow 2025 2 c5Row [] =
        .error ⟨2, "Missing essential location data (name or coordinates)"⟩ := by decide

/-- C5 amended: a row produces a record if and only if its location name
resolves to a non-empty string and at least one coordinate axis resolves to
a **nonzero** number (an axis that is unresolved or parses to 0 counts as
missing, by JavaScript truthiness). -/
theorem C5_drop_rule_amended (cy : ℤ) (n : ℕ) (r : RowCells)
    (mc : List (String × MetalCol)) :
    (∃ rec, processRow cy n r mc = .ok rec) ↔
      ((∃ s, (extractLocationInfo cy r).name = some s ∧ s ≠ "")
       ∧ ((∃ v, (extractLocationInfo cy r).latitude = some v ∧ v ≠ 0)
          ∨ (∃ v, (extractLocationInfo cy r).longitude = some v ∧ v ≠ 0))) := by
  rw [processRow]
  cases h : (jsFalsyOptStr (extractLocationInfo cy r).name ||
      (jsFalsyOptNum (extractLocationInfo cy r).latitude &&
       jsFalsyOptNum (extractLocationInfo cy r).longitude)) with
  | false =>
    simp only [h, Bool.false_eq_true, if_false]
    simp only [Bool.or_eq_false_iff, Bool.and_eq_false_iff] at h
    constructor
    · intro _
      refine ⟨(jsFalsyOptStr_eq_false _).mp h.1, ?_⟩
      rcases h.2 with hl | hl
      · exact .inl ((jsFalsyOptNum_eq_false _).mp hl)
      · exact .inr ((jsFalsyOptNum_eq_false _).mp hl)
    · intro _
      exact ⟨_, rfl⟩
  | true =>
    simp only [h, if_true]
    constructor
    · rintro ⟨rec, hrec⟩
      exact absurd hrec (by simp)
    · rintro ⟨hn, hc⟩
      exfalso
      rcases Bool.or_eq_true_iff.mp h with h1 | h23
      · rw [(jsFalsyOptStr_eq_false _).mpr hn] at h1
        exact Bool.false_ne_true h1
      · rcases Bool.and_eq_true_iff.mp h23 with ⟨h2, h3⟩
        rcases hc with hv | hv
        · rw [(jsFalsyOptNum_eq_false _).mpr hv] at h2
          exact Bool.false_ne_true h2
        · rw [(jsFalsyOptNum_eq_false _).mpr hv] at h3
          exact Bool.false_ne_true h3

/-- C6 counterexample: for an empty heavy-metals mapping the controller
stores the category "No Heavy Metals", not "Unknown" (the "Unknown"
category is reserved for the catch branch taken when metals are present
but the calculation fails). -/
theorem C6_empty_metals_category_counterexample :
    (computePollutionIndices []).hmpi.category = "No Heavy Metals"
    ∧ "No Heavy Metals" ≠ "Unknown" := ⟨rfl, by decide⟩

/-- C6 amended: processing an empty heavy-metals mapping never aborts the
record — the controller skips the calculation and stores a null value with
category "No Heavy Metals"; when metals are present but none matches a
standard, the thrown calculation error is caught and degraded to a null
value with category "Unknown"; and the underlying `calculateHPI` itself
fails (produces no result) when zero metals match a standard. -/
theorem C6_degradation_amended :
    (computePollutionIndices []).hmpi = ⟨none, "No Heavy Metals"⟩
    ∧ (computePollutionIndices []).calcError = none
    ∧ (computePollutionIndices mnInput).hmpi = ⟨none, "Unknown"⟩
    ∧ (computePollutionIndices mnInput).calcError =
        some "Comprehensive assessment failed: No valid metals found for HPI calculation"
    ∧ calculateHPI mnInput = .error "No valid metals found for HPI calculation" := by
  refine ⟨rfl, rfl, ?_, ?_, calculateHPI_mnInput⟩
  · rw [computePollutionIndices, if_pos (by simp [mnInput]), comprehensive_mnInput]
  · rw [computePollutionIndices, if_pos (by simp [mnInput]), comprehensive_mnInput]

/-- C7: for AS at 0.02 mg/L with body weight 70 kg and water intake
2 L/day, the daily intake is 0.000571 (6 decimals) and the HRI is 1.905
(3 decimals) with a Risk interpretation; and any assessment whose only risk
flag is the health-risk flag yields exactly one risk factor and the overall
tier Moderate. -/
theorem C7_hri_scenarioE_and_overall :
    calculateHealthRiskIndex [("AS", ⟨0.02, "mg/L"⟩)] 70 2 =
      [("AS", ⟨1.905, ⟨"Potential health risk", "Risk"⟩, 0.000571, 0.0003⟩)]
    ∧ ∀ res : AssessmentCore,
        res.hpi.interpretation.level ≠ "Unsafe" →
        res.nemerowIndex.interpretation.level ≠ "High" →
        res.pollutionLoadIndex.interpretation.level ≠ "Polluted" →
        res.ecologicalRiskIndex.interpretation.level ≠ "High" →
        0 < (res.healthRiskIndex.filter fun h => h.2.interpretation.level = "Risk").length →
        (generateOverallAssessment res).riskFactors.length = 1
        ∧ (generateOverallAssessment res).riskLevel = "Moderate" := by
  constructor
  · simp [calculateHealthRiskIndex, referenceDoses, List.lookup,
      normalizeToMgL, conversionFactorsToMgL, round3, round6, jsRound, interpretHRI,
      show jsToUpper "AS" = "AS" from by decide]
    norm_num
  · intro res h1 h2 h3 h4 h5
    simp [generateOverallAssessment, h1, h2, h3, h4, h5]

/-- C7 witness: a concrete assessment with safe HPI/Nemerow/PLI/ERI tiers
and a single Risk-level HRI entry is rated Moderate with one risk factor. -/
theorem C7_hri_overall_witness :
    (generateOverallAssessment c7Core).riskFactors.length = 1
    ∧ (generateOverallAssessment c7Core).riskLevel = "Moderate" :=
  C7_hri_scenarioE_and_overall.2 c7Core
    (by decide) (by decide) (by decide) (by decide) (by decide)

/-- C8: unit normalization multiplies the value by the fixed factor of the
unit (ppm→1, ppb→0.001, μg/L→0.001, g/L→1000, ng/L→1e-6, mg/L→1); an
already-canonical mg/L value is returned unchanged, and any unit missing
from the conversion table is treated as factor 1. The function depends on
nothing but the (value, unit) pair. -/
theorem C8_normalize_unit_factors :
    (∀ v : ℚ,
      normalizeToMgL v "ppm" = v * 1
      ∧ normalizeToMgL v "ppb" = v * 0.001
      ∧ normalizeToMgL v "μg/L" = v * 0.001
      ∧ normalizeToMgL v "g/L" = v * 1000
      ∧ normalizeToMgL v "ng/L" = v * 0.000001
      ∧ normalizeToMgL v "mg/L" = v)
    ∧ ∀ (v : ℚ) (u : String),
        conversionFactorsToMgL.lookup u = none → normalizeToMgL v u = v := by
  constructor
  · intro v
    refine ⟨?_, ?_, ?_, ?_, ?_, ?_⟩ <;>
      simp [normalizeToMgL, conversionFactorsToMgL, List.lookup]
  · intro v u h
    simp [normalizeToMgL, h]

/-- C8 witness: the unknown unit "oz/gal" is not in the table and leaves
the value 3 unchanged. -/
theorem C8_normalize_unknown_unit_witness :
    conversionFactorsToMgL.lookup "oz/gal" = none
    ∧ normalizeToMgL 3 "oz/gal" = 3 :=
  ⟨by decide, C8_normalize_unit_factors.2 3 "oz/gal" (by decide)⟩

/-- C9 counterexample: the year 1900 lies inside the claim's inclusive
accepted range (1900 ≤ 1900 ≤ currentYear + 1 for currentYear 2026), yet
the extractor discards it — the source check is strict: `year > 1900`. -/
theorem C9_year_1900_counterexample :
    (extractLocationInfo 2026 ⟨.empty, .empty, .empty, .empty, .empty, .num 1900, .empty⟩).year
      = none
    ∧ ((1900 : ℤ) ≥ 1900 ∧ (1900 : ℤ) ≤ 2026 + 1) := by decide

/-- C9 amended: an integer year cell is kept iff `1900 < y ≤ currentYear + 1`
(exclusive at 1900, inclusive at currentYear + 1); a non-numeric year cell
is discarded. -/
theorem C9_year_range_amended (cy y : ℤ) :
    ((extractLocationInfo cy ⟨.empty, .empty, .empty, .empty, .empty, .num (y : ℚ), .empty⟩).year
        = some y ↔ (1900 < y ∧ y ≤ cy + 1))
    ∧ (extractLocationInfo cy ⟨.empty, .empty, .empty, .empty, .empty, .str "abc", .empty⟩).year
        = none := by
  constructor
  · simp only [extractLocationInfo, parseIntCell, ratTrunc_intCast]
    by_cases h : 1900 < y ∧ y ≤ cy + 1
    · simp [h]
    · simp only [if_neg h]
      simp [h]
  · simp [extractLocationInfo, parseIntCell,
      show jsParseIntStr "abc" = none from by decide]

/-- C10: every accepted row's GeoJSON coordinate pair is
`[longitude || 0, latitude || 0]`: an axis that is unresolved (or resolves
to the falsy value 0) is stored as 0, never left absent — so the pair always
holds two numbers. -/
theorem C10_coordinates_default_zero (cy : ℤ) (n : ℕ) (r : RowCells)
    (mc : List (String × MetalCol)) (rec : SampleRecord)
    (h : processRow cy n r mc = .ok rec) :
    rec.coordinates = ((extractLocationInfo cy r).longitude.getD 0,
                       (extractLocationInfo cy r).latitude.getD 0) := by
  rw [processRow] at h
  split at h
  · exact absurd h (by simp)
  · injection h with h'
    subst h'
    simp [jsOrZero_eq_getD]

/-- C10 witness: the row with latitude 5 and no longitude column is
accepted and persisted with coordinates (0, 5). -/
theorem C10_coordinates_witness :
    processRow 2025 2 c10Row [] = .ok c10Rec
    ∧ c10Rec.coordinates = ((extractLocationInfo 2025 c10Row).longitude.getD 0,
                            (extractLocationInfo 2025 c10Row).latitude.getD 0) :=
  ⟨by decide, C10_coordinates_default_zero 2025 2 c10Row [] c10Rec (by decide)⟩

end AMRIT
